import Mathlib

/-!
# NHS Plotly/Dash dashboard — verification of the derived-metrics and
filter/aggregate pipeline

Shallow embedding of `src/app.py`: the table loaded from the CSV is a list
of rows of named rational fields; the pandas float arithmetic that can
produce non-finite values is modelled by an extended value type `PVal`
(finite rational, the two infinities, NaN) with IEEE-754-style operations;
the eight tab builders of `render_content` are translated branch by branch.
-/

namespace NhsDash

/-- An IEEE-754-style extended value as pandas float columns hold them: a
finite rational, positive or negative infinity, or NaN. -/
inductive PVal where
  | fin (q : ℚ)
  | pinf
  | ninf
  | nan
deriving DecidableEq

/-- Float division of two finite values as pandas performs it: division by
zero yields an infinity of the numerator's sign, and 0/0 yields NaN. -/
def fdiv (a b : ℚ) : PVal :=
  if b ≠ 0 then .fin (a / b)
  else if 0 < a then .pinf
  else if a < 0 then .ninf
  else .nan

/-- IEEE addition on extended values (used to model pandas column sums). -/
def PVal.add : PVal → PVal → PVal
  | .nan, _ => .nan
  | _, .nan => .nan
  | .pinf, .ninf => .nan
  | .ninf, .pinf => .nan
  | .pinf, _ => .pinf
  | _, .pinf => .pinf
  | .ninf, _ => .ninf
  | _, .ninf => .ninf
  | .fin a, .fin b => .fin (a + b)

/-- Multiplication by a positive finite constant (scaling by 100 for a
percentage, or by 1/n for a mean over n values). -/
def PVal.scale (c : ℚ) : PVal → PVal
  | .fin q => .fin (q * c)
  | .pinf => .pinf
  | .ninf => .ninf
  | .nan => .nan

def PVal.isNan : PVal → Bool
  | .nan => true
  | _ => false

/-- The pandas comparison `x > 0` on a float column: true for positive
finite values and +inf, false for NaN and non-positive values. -/
def PVal.gtZero : PVal → Bool
  | .fin q => decide (0 < q)
  | .pinf => true
  | _ => false

/-- Sum of an extended-value column (pandas folds with + starting at 0). -/
def psum (xs : List PVal) : PVal := xs.foldl PVal.add (.fin 0)

/-- The pandas `Series.mean` with its default `skipna=True`: NaN entries are
dropped, the rest summed and divided by their count; the mean of an empty
(or all-NaN) column is NaN. -/
def pmean (xs : List PVal) : PVal :=
  let ys := xs.filter (fun x => ! x.isNan)
  if ys.length = 0 then .nan else (psum ys).scale (1 / (ys.length : ℚ))

/-- Mean of a finite (never-NaN) rational column; empty mean is NaN. -/
def qmean (xs : List ℚ) : PVal :=
  if xs.length = 0 then .nan else .fin (xs.sum / (xs.length : ℚ))

/-- The sanitisation `.replace([np.inf, -np.inf], 0).fillna(0)` applied to
`Cost_Per_Answered_Call` in `app.py` line 13-15: non-finite values become 0. -/
def sanitize : PVal → ℚ
  | .fin q => q
  | _ => 0

/-- One raw CSV record of `NHS Calls.csv`, with the columns `app.py`
reads. Field names abbreviate the CSV column headers:
`providerName` = "Provider Name", `offered` = "Nhs1 Number Calls Offered SUM",
`answered` = "Nhs1 Answered Calls SUM", `abandoned` = "Nhs1 Abandoned Calls SUM",
`recommendAe` = "Nhs1 Recommend To Ae SUM",
`recommendPrimcare` = "Nhs1 Recommend To Primcare SUM",
`ambDispatches` = "Nhs1 Amb Dispatches SUM", `population` = "Nhs1 Population SUM",
`costCallHandlers` = "Nhs1 Cost Call Handlers SUM",
`costClinicalStaff` = "Nhs1 Cost Clinical Staff SUM",
`callsThrough111` = "Nhs1 Calls Through 111 SUM", `combinedRank` = "Combined_Rank",
`answered60secRate` = "Answered_60sec_Rate",
`callback10minCompliance` = "Callback_10min_Compliance",
`aveWtransferTimeMinutes` = "Ave_Wtransfer_Time_Minutes". -/
structure RawRow where
  providerName : String
  offered : ℚ
  answered : ℚ
  abandoned : ℚ
  recommendAe : ℚ
  recommendPrimcare : ℚ
  ambDispatches : ℚ
  population : ℚ
  costCallHandlers : ℚ
  costClinicalStaff : ℚ
  callsThrough111 : ℚ
  combinedRank : ℚ
  answered60secRate : ℚ
  callback10minCompliance : ℚ
  aveWtransferTimeMinutes : ℚ
deriving DecidableEq

/-- A table row after the Metric Deriver (`app.py` lines 11-21) has attached
the seven derived columns. -/
structure Row extends RawRow where
  abandonmentRate : PVal
  totalCost : ℚ
  costPerAnsweredCall : ℚ
  aeReferralRate : PVal
  primaryCareReferralRate : PVal
  callsOfferedPer1k : PVal
  ambulanceDispatchesPer1k : PVal
deriving DecidableEq

/-- The Metric Deriver on one row, exactly `app.py` lines 11-21:
`Abandonment Rate = abandoned / offered`,
`Total_Cost = cost handlers + cost clinical`,
`Cost_Per_Answered_Call = (Total_Cost / answered)` with ±inf and NaN zeroed,
the two referral rates divide by answered calls,
the two per-1k rates divide by population / 1000. -/
def deriveRow (r : RawRow) : Row :=
  { toRawRow := r
    abandonmentRate := fdiv r.abandoned r.offered
    totalCost := r.costCallHandlers + r.costClinicalStaff
    costPerAnsweredCall := sanitize (fdiv (r.costCallHandlers + r.costClinicalStaff) r.answered)
    aeReferralRate := fdiv r.recommendAe r.answered
    primaryCareReferralRate := fdiv r.recommendPrimcare r.answered
    callsOfferedPer1k := fdiv r.offered (r.population / 1000)
    ambulanceDispatchesPer1k := fdiv r.ambDispatches (r.population / 1000) }

/-- The Metric Deriver over the whole table: row-wise map. -/
def deriveRows (l : List RawRow) : List Row := l.map deriveRow

/-- An in-memory data frame: the column-name list (as `DataFrame.columns`,
used by the heatmap branch's membership test) and the rows. -/
structure Frame where
  cols : List String
  rows : List Row
deriving DecidableEq

/-- The Filter Stage, `app.py` lines 103-106: the sentinel selector "All"
keeps the whole table (`data.copy()`), any other selector keeps the rows
whose Provider Name equals it. -/
def filterStage (data : Frame) (sel : String) : Frame :=
  if sel = "All" then data
  else { data with rows := data.rows.filter (fun r => decide (r.providerName = sel)) }

/-! ### Builders for the individual tabs -/

/-- Rows of the table carrying a given provider name (one pandas group). -/
def groupRows (rows : List Row) (n : String) : List Row :=
  rows.filter (fun r => decide (r.providerName = n))

def groupSumAe (rows : List Row) (n : String) : ℚ :=
  ((groupRows rows n).map (·.recommendAe)).sum

def groupSumPrimcare (rows : List Row) (n : String) : ℚ :=
  ((groupRows rows n).map (·.recommendPrimcare)).sum

def groupSumAnswered (rows : List Row) (n : String) : ℚ :=
  ((groupRows rows n).map (·.answered)).sum

/-- The distinct provider names in groupby order (pandas sorts group keys
ascending by default). -/
def sortedNames (rows : List Row) : List String :=
  ((rows.map (·.providerName)).dedup).mergeSort (fun a b => decide (a ≤ b))

/-- The referral-analysis bar data for the "All" branch of `tab-bar`
(`app.py` lines 126-138): group by Provider Name, sum the two referral
counts and the answered calls per group, recompute each group's two
referral rates from those sums, and melt into long form — one
(provider, referral type, rate) triple per provider per type, all
A&E rows first, as `DataFrame.melt` orders the value columns. -/
def referralMelted (rows : List Row) : List (String × String × PVal) :=
  let names := sortedNames rows
  (names.map fun n =>
    (n, "A&E_Referral_Rate", fdiv (groupSumAe rows n) (groupSumAnswered rows n)))
  ++ (names.map fun n =>
    (n, "PrimaryCare_Referral_Rate", fdiv (groupSumPrimcare rows n) (groupSumAnswered rows n)))

/-- Descending sort key on extended values used by
`sort_values('Abandonment Rate', ascending=False)`: larger rates first,
+inf greatest, NaN last (pandas default `na_position` puts NaN at the end). -/
def descBy (a b : PVal) : Bool :=
  match a, b with
  | _, .nan => true
  | .nan, _ => false
  | .pinf, _ => true
  | _, .pinf => false
  | _, .ninf => true
  | .ninf, _ => false
  | .fin x, .fin y => decide (y ≤ x)

/-- `drop_duplicates('Provider Name')` with its default `keep="first"`:
keep each row whose provider name has not appeared before. -/
def dedupByName (seen : List String) : List Row → List Row
  | [] => []
  | r :: rs =>
    if r.providerName ∈ seen then dedupByName seen rs
    else r :: dedupByName (r.providerName :: seen) rs

/-- Row comparison for `sort_values('Abandonment Rate', ascending=False)`. -/
def rateDesc (a b : Row) : Bool := descBy a.abandonmentRate b.abandonmentRate

/-- The abandonment-pie data for the "All" branch of `tab-pie` (`app.py`
lines 186-188): drop rows whose Abandonment Rate is NaN, keep those with
rate > 0, sort descending by rate, drop duplicate provider names keeping the
first, take the top 10. -/
def pieTop10 (rows : List Row) : List Row :=
  (dedupByName []
    (((rows.filter (fun r => ! r.abandonmentRate.isNan)).filter
        (fun r => r.abandonmentRate.gtZero)).mergeSort rateDesc)).take 10

/-- Row comparison for `sort_values('Combined_Rank')` (ascending). -/
def rankLe (a b : Row) : Bool := decide (a.combinedRank ≤ b.combinedRank)

/-- The top-10-performance data for the "All" branch of `tab-bar1`
(`app.py` line 231): sort the whole table ascending by Combined_Rank and
take the first 10 rows. -/
def top10Perf (rows : List Row) : List Row :=
  (rows.mergeSort rankLe).take 10

/-- The two columns handed to `.corr()` by the heatmap branch. -/
def corrPairs (rows : List Row) : List (ℚ × ℚ) :=
  rows.map (fun r => (r.aveWtransferTimeMinutes, r.ambDispatches))

/-! ### Summary aggregates (`tab-summary`) -/

def sumOffered (rows : List Row) : ℚ := (rows.map (·.offered)).sum

def abandonMeanPct (rows : List Row) : PVal :=
  (pmean (rows.map (·.abandonmentRate))).scale 100

def sumTotalCost (rows : List Row) : ℚ := (rows.map (·.totalCost)).sum

def avgCostPerAnswered (rows : List Row) : PVal :=
  qmean (rows.map (·.costPerAnsweredCall))

def sum111 (rows : List Row) : ℚ := (rows.map (·.callsThrough111)).sum

def sumPopulation (rows : List Row) : ℚ := (rows.map (·.population)).sum

/-- The value a tab renders, keeping the data content each branch of
`render_content` feeds to its dash/plotly artifact. `empty` is the Python
`None` a fall-through returns. -/
inductive Artifact where
  | dataTable (rows : List Row)
  | referralBarAll (melted : List (String × String × PVal))
  | referralBarOne (aeRate primRate : PVal)
  | heatmap (pairs : List (ℚ × ℚ))
  | textDiv (msg : String)
  | pieAll (rows : List Row)
  | pieOne (abandoned answered : ℚ)
  | scatter (rows : List Row)
  | perfBar (rows : List Row)
  | summary (totalCalls : ℚ) (abandonRatePct : PVal) (totalCost : ℚ)
      (avgCost : PVal) (calls111 : ℚ) (population : ℚ)
  | empty
deriving DecidableEq

/-- The callback `render_content(tab, selected_provider)` of `app.py`
lines 102-301, with the module-level table `data` passed explicitly. The
second component of the result is the module-level table as the callback
leaves it: every branch only reads `data` or builds copies
(`.copy()`, filtering, `groupby`, `sort_values` all allocate new frames),
so it is returned unchanged. The `elif` chain is kept in source order;
note the declared tab value `tab-graph` has no branch and falls through. -/
def render_content (data : Frame) (tab sel : String) : Artifact × Frame :=
  let filtered_data := filterStage data sel
  if tab = "tab-table" then
    (.dataTable filtered_data.rows, data)
  else if tab = "tab-bar" then
    if sel = "All" then
      (.referralBarAll (referralMelted data.rows), data)
    else
      (.referralBarOne
        (fdiv ((filtered_data.rows.map (·.recommendAe)).sum)
              ((filtered_data.rows.map (·.answered)).sum))
        (fdiv ((filtered_data.rows.map (·.recommendPrimcare)).sum)
              ((filtered_data.rows.map (·.answered)).sum)), data)
  else if tab = "tab-heatmap" then
    if "Ave_Wtransfer_Time_Minutes" ∈ filtered_data.cols ∧
        "Nhs1 Amb Dispatches SUM" ∈ filtered_data.cols then
      (.heatmap (corrPairs filtered_data.rows), data)
    else
      (.textDiv "Error: Missing necessary columns for correlation analysis.", data)
  else if tab = "tab-pie" then
    if sel = "All" then
      (.pieAll (pieTop10 data.rows), data)
    else
      (.pieOne ((filtered_data.rows.map (·.abandoned)).sum)
        ((filtered_data.rows.map (·.answered)).sum), data)
  else if tab = "tab-scatter" then
    (.scatter filtered_data.rows, data)
  else if tab = "tab-bar1" then
    if sel = "All" then
      (.perfBar (top10Perf data.rows), data)
    else
      (.perfBar (data.rows.filter (fun r => decide (r.providerName = sel))), data)
  else if tab = "tab-summary" then
    if sel = "All" then
      (.summary (sumOffered data.rows) (abandonMeanPct data.rows)
        (sumTotalCost data.rows) (avgCostPerAnswered data.rows)
        (sum111 data.rows) (sumPopulation data.rows), data)
    else
      (.summary (sumOffered filtered_data.rows) (abandonMeanPct filtered_data.rows)
        (sumTotalCost filtered_data.rows) (avgCostPerAnswered filtered_data.rows)
        (sum111 filtered_data.rows) (sumPopulation filtered_data.rows), data)
  else
    (.empty, data)

/-- The eight tab values declared in the layout (`app.py` lines 63-90). -/
def declaredTabs : List String :=
  ["tab-summary", "tab-table", "tab-graph", "tab-heatmap",
   "tab-pie", "tab-bar", "tab-scatter", "tab-bar1"]

/-! ### Concrete inputs used by witnesses: the spec's two-provider scenario
(§8): provider "A" with offered=100, answered=80, abandoned=20, total
cost 800, and provider "B" with offered=50, answered=0, abandoned=50,
total cost 500. -/

def rowA : RawRow :=
  { providerName := "A", offered := 100, answered := 80, abandoned := 20,
    recommendAe := 40, recommendPrimcare := 20, ambDispatches := 5,
    population := 1000, costCallHandlers := 500, costClinicalStaff := 300,
    callsThrough111 := 60, combinedRank := 1, answered60secRate := 90,
    callback10minCompliance := 80, aveWtransferTimeMinutes := 12 }

def rowB : RawRow :=
  { providerName := "B", offered := 50, answered := 0, abandoned := 50,
    recommendAe := 0, recommendPrimcare := 0, ambDispatches := 3,
    population := 2000, costCallHandlers := 400, costClinicalStaff := 100,
    callsThrough111 := 30, combinedRank := 2, answered60secRate := 70,
    callback10minCompliance := 60, aveWtransferTimeMinutes := 8 }

def frameAB : Frame :=
  { cols := ["Provider Name", "Ave_Wtransfer_Time_Minutes",
             "Nhs1 Amb Dispatches SUM"],
    rows := deriveRows [rowA, rowB] }

/-! ## Claims -/

/-- C1: for every row, if Answered Calls > 0 then Cost_Per_Answered_Call
equals Total_Cost / Answered Calls, and if Answered Calls = 0 then it is 0
exactly (the non-finite quotient is sanitised to 0 for this field only). -/
theorem c1_cost_per_answered_call (r : RawRow) :
    (0 < r.answered →
      (deriveRow r).costPerAnsweredCall = (deriveRow r).totalCost / r.answered) ∧
    (r.answered = 0 → (deriveRow r).costPerAnsweredCall = 0) := by
  constructor
  · intro h
    have hne : r.answered ≠ 0 := ne_of_gt h
    simp [deriveRow, fdiv, sanitize, hne]
  · intro h
    by_cases h1 : 0 < r.costCallHandlers + r.costClinicalStaff
    · simp [deriveRow, fdiv, sanitize, h, h1]
    · by_cases h2 : r.costCallHandlers + r.costClinicalStaff < 0 <;>
        simp [deriveRow, fdiv, sanitize, h, h1, h2]

/-- C1 witness at the spec's scenario rows: provider A (answered=80, total
cost 800) gets Cost_Per_Answered_Call = 10, provider B (answered=0, total
cost 500) gets the sanitised 0. -/
theorem c1_cost_witness :
    (deriveRow rowA).costPerAnsweredCall = 10 ∧
    (deriveRow rowB).costPerAnsweredCall = 0 := by
  constructor
  · have h := (c1_cost_per_answered_call rowA).1 (by norm_num [rowA])
    rw [h]
    norm_num [deriveRow, rowA]
  · exact (c1_cost_per_answered_call rowB).2 (by norm_num [rowB])

/-- C2: the Filter Stage with the sentinel "All" keeps the full row count;
with a provider name present in the table it yields a non-empty subset all
of whose rows carry that name; with a name matching no row it yields the
empty subset (and, being a total function, raises no error). -/
theorem c2_filter_stage (f : Frame) (sel : String) :
    (filterStage f "All").rows.length = f.rows.length ∧
    (sel ≠ "All" → (∃ r ∈ f.rows, r.providerName = sel) →
      (filterStage f sel).rows ≠ [] ∧
        ∀ r ∈ (filterStage f sel).rows, r.providerName = sel) ∧
    (sel ≠ "All" → (∀ r ∈ f.rows, r.providerName ≠ sel) →
      (filterStage f sel).rows = []) := by
  refine ⟨by simp [filterStage], fun hs hex => ?_, fun hs hnone => ?_⟩
  · obtain ⟨r, hr, hname⟩ := hex
    constructor
    · apply List.ne_nil_of_mem (a := r)
      simp [filterStage, hs, List.mem_filter, hr, hname]
    · intro r hrmem
      simp [filterStage, hs, List.mem_filter] at hrmem
      exact hrmem.2
  · simp only [filterStage, if_neg hs]
    simp only [List.filter_eq_nil_iff, decide_eq_true_eq]
    exact fun a ha => hnone a ha

/-- C2 witness on the concrete two-provider table: "All" keeps both rows,
"A" (present) gives a non-empty subset all named "A", "C" (absent) gives
the empty subset. -/
theorem c2_filter_witness :
    (filterStage frameAB "All").rows.length = frameAB.rows.length ∧
    ((filterStage frameAB "A").rows ≠ [] ∧
      ∀ r ∈ (filterStage frameAB "A").rows, r.providerName = "A") ∧
    (filterStage frameAB "C").rows = [] := by
  refine ⟨(c2_filter_stage frameAB "All").1, ?_, ?_⟩
  · apply (c2_filter_stage frameAB "A").2.1 (by decide)
    exact ⟨deriveRow rowA, by simp [frameAB, deriveRows], rfl⟩
  · apply (c2_filter_stage frameAB "C").2.2 (by decide)
    intro r hr
    simp only [frameAB, deriveRows, List.map_cons, List.map_nil,
      List.mem_cons, List.not_mem_nil, or_false] at hr
    rcases hr with h | h <;> subst h <;> decide

/-- C3: the Summary view computes its six aggregates over the filtered
subset (which is the whole table exactly when the selector is "All"):
sum of offered calls, mean abandonment rate times 100, sum of total cost,
mean cost-per-answered-call, sum of 111 calls, sum of population. -/
theorem c3_summary_uses_subset (f : Frame) (sel : String) :
    (render_content f "tab-summary" sel).1 =
      .summary (sumOffered (filterStage f sel).rows)
        (abandonMeanPct (filterStage f sel).rows)
        (sumTotalCost (filterStage f sel).rows)
        (avgCostPerAnswered (filterStage f sel).rows)
        (sum111 (filterStage f sel).rows)
        (sumPopulation (filterStage f sel).rows) := by
  by_cases h : sel = "All" <;>
    simp [render_content, filterStage, h]

/-- C8: evaluating the render callback leaves the base table unchanged —
its final state equals its initial state for every (tab, selector) pair, so
repeated invocations in any order all see the identical base table. -/
theorem c8_base_table_unchanged (f : Frame) (tab sel tab' sel' : String) :
    (render_content f tab sel).2 = f ∧
    render_content (render_content f tab sel).2 tab' sel' =
      render_content f tab' sel' := by
  have h : (render_content f tab sel).2 = f := by
    simp only [render_content, apply_ite Prod.snd, ite_self]
  exact ⟨h, by rw [h]⟩

/-- C10: a view identifier outside the eight declared tab values matches no
branch of the `elif` chain and the callback returns the empty artifact
(Python `None`), leaving the table unchanged and raising no exception. -/
theorem c10_unknown_tab (f : Frame) (tab sel : String)
    (h : tab ∉ declaredTabs) :
    render_content f tab sel = (Artifact.empty, f) := by
  simp only [declaredTabs, List.mem_cons, List.not_mem_nil, or_false,
    not_or] at h
  obtain ⟨h1, h2, h3, h4, h5, h6, h7, h8⟩ := h
  simp [render_content, h1, h2, h3, h4, h5, h6, h7, h8]

/-- C10 witness: the unrecognised identifier "tab-bogus" yields the empty
artifact on the concrete table. -/
theorem c10_unknown_witness :
    render_content frameAB "tab-bogus" "All" = (Artifact.empty, frameAB) :=
  c10_unknown_tab frameAB "tab-bogus" "All" (by decide)

/-- C7: the heatmap view returns the plain-text error artifact exactly when
the transfer-time column or the ambulance-dispatch column is absent from
the table's columns (the filtered subset keeps the same columns), and when
both are present it returns the heatmap chart built from those two columns
of the filtered subset; both branches are values of a total function, so no
exception is raised. -/
theorem c7_heatmap_error_iff (f : Frame) (sel : String) :
    ((render_content f "tab-heatmap" sel).1 =
        .textDiv "Error: Missing necessary columns for correlation analysis." ↔
      ("Ave_Wtransfer_Time_Minutes" ∉ f.cols ∨
        "Nhs1 Amb Dispatches SUM" ∉ f.cols)) ∧
    ("Ave_Wtransfer_Time_Minutes" ∈ f.cols → "Nhs1 Amb Dispatches SUM" ∈ f.cols →
      (render_content f "tab-heatmap" sel).1 =
        .heatmap (corrPairs (filterStage f sel).rows)) := by
  have hcols : (filterStage f sel).cols = f.cols := by
    by_cases h : sel = "All" <;> simp [filterStage, h]
  by_cases hc : "Ave_Wtransfer_Time_Minutes" ∈ f.cols ∧
      "Nhs1 Amb Dispatches SUM" ∈ f.cols
  · constructor
    · simp [render_content, hcols, hc]
    · intro _ _
      simp [render_content, hcols, hc]
  · constructor
    · simp [render_content, hcols, hc]
      tauto
    · intro h1 h2
      exact absurd ⟨h1, h2⟩ hc

/-- C7 witness: on the concrete table, whose columns include both required
names, the heatmap view returns the chart artifact for the whole table. -/
theorem c7_heatmap_witness :
    (render_content frameAB "tab-heatmap" "All").1 =
      .heatmap (corrPairs frameAB.rows) := by
  have h := (c7_heatmap_error_iff frameAB "All").2 (by decide) (by decide)
  simpa [filterStage] using h

/-! ### Order properties of the sort comparators, and the dedup helper -/

theorem descBy_trans :
    ∀ a b c : PVal, descBy a b = true → descBy b c = true → descBy a c = true := by
  intro a b c hab hbc
  cases a <;> cases b <;> cases c <;> simp_all [descBy]
  linarith

theorem descBy_total : ∀ a b : PVal, (descBy a b || descBy b a) = true := by
  intro a b
  cases a <;> cases b <;> simp [descBy]
  exact le_total _ _

theorem rateDesc_trans :
    ∀ a b c : Row, rateDesc a b = true → rateDesc b c = true → rateDesc a c = true :=
  fun _ _ _ hab hbc => descBy_trans _ _ _ hab hbc

theorem rateDesc_total : ∀ a b : Row, (rateDesc a b || rateDesc b a) = true :=
  fun _ _ => descBy_total _ _

theorem rankLe_trans :
    ∀ a b c : Row, rankLe a b = true → rankLe b c = true → rankLe a c = true := by
  intro a b c hab hbc
  simp only [rankLe, decide_eq_true_eq] at *
  exact le_trans hab hbc

theorem rankLe_total : ∀ a b : Row, (rankLe a b || rankLe b a) = true := by
  intro a b
  simp only [rankLe, Bool.or_eq_true, decide_eq_true_eq]
  exact le_total _ _

theorem dedupByName_sublist (seen : List String) (l : List Row) :
    (dedupByName seen l).Sublist l := by
  induction l generalizing seen with
  | nil => simp [dedupByName]
  | cons a rs ih =>
    by_cases h : a.providerName ∈ seen
    · simp only [dedupByName, if_pos h]
      exact (ih seen).cons a
    · simp only [dedupByName, if_neg h]
      exact (ih _).cons₂ a

theorem mem_dedupByName_not_seen (seen : List String) (l : List Row) :
    ∀ r ∈ dedupByName seen l, r.providerName ∉ seen := by
  induction l generalizing seen with
  | nil => simp [dedupByName]
  | cons a rs ih =>
    by_cases h : a.providerName ∈ seen
    · simpa [dedupByName, h] using ih seen
    · intro r hr
      simp only [dedupByName, if_neg h, List.mem_cons] at hr
      rcases hr with rfl | hr
      · exact h
      · intro hmem
        exact ih (a.providerName :: seen) r hr (List.mem_cons_of_mem _ hmem)

theorem dedupByName_names_pairwise (seen : List String) (l : List Row) :
    List.Pairwise (fun a b : Row => a.providerName ≠ b.providerName)
      (dedupByName seen l) := by
  induction l generalizing seen with
  | nil => simp [dedupByName]
  | cons a rs ih =>
    by_cases h : a.providerName ∈ seen
    · simpa [dedupByName, h] using ih seen
    · simp only [dedupByName, if_neg h]
      refine List.Pairwise.cons (fun b hb heq => ?_) (ih _)
      exact mem_dedupByName_not_seen _ _ b hb (heq ▸ List.mem_cons_self _ _)

/-- C4: the Abandonment Pie builder on the "All" selector returns at most
10 rows, with pairwise distinct Provider Name values, every row having
Abandonment Rate > 0 (NaN and non-positive rates having been dropped),
sorted descending by Abandonment Rate (keeping, for each provider, the
first occurrence after that descending sort — `dedupByName` keeps first
occurrences by construction). -/
theorem c4_pie_top10 (f : Frame) :
    (render_content f "tab-pie" "All").1 = .pieAll (pieTop10 f.rows) ∧
    (pieTop10 f.rows).length ≤ 10 ∧
    List.Pairwise (fun a b : Row => a.providerName ≠ b.providerName)
      (pieTop10 f.rows) ∧
    (∀ r ∈ pieTop10 f.rows, r.abandonmentRate.gtZero = true) ∧
    List.Pairwise (fun a b : Row => rateDesc a b = true) (pieTop10 f.rows) := by
  have hsubdedup :
      (pieTop10 f.rows).Sublist
        (((f.rows.filter (fun r => ! r.abandonmentRate.isNan)).filter
            (fun r => r.abandonmentRate.gtZero)).mergeSort rateDesc) :=
    (List.take_sublist _ _).trans (dedupByName_sublist [] _)
  refine ⟨by simp [render_content], List.length_take_le _ _, ?_, ?_, ?_⟩
  · exact List.Pairwise.sublist (List.take_sublist _ _)
      (dedupByName_names_pairwise [] _)
  · intro r hr
    have hmem := (List.mergeSort_perm _ rateDesc).mem_iff.mp (hsubdedup.subset hr)
    exact (List.mem_filter.mp hmem).2
  · exact List.Pairwise.sublist hsubdedup
      (List.sorted_mergeSort rateDesc_trans rateDesc_total _)

/-- C5: the Top-10 Performance builder on the "All" selector returns the
table sorted ascending by Combined_Rank truncated to 10 rows — exactly 10
when the table has at least 10 rows, all rows otherwise — with no
distinctness guarantee on Provider Name (a table of two identically named
rows keeps both); a specific selected provider yields that provider's rows
with no sort or truncation. -/
theorem c5_top10_performance (f : Frame) (sel : String) :
    ((render_content f "tab-bar1" "All").1 = .perfBar (top10Perf f.rows)) ∧
    (10 ≤ f.rows.length → (top10Perf f.rows).length = 10) ∧
    (f.rows.length < 10 → (top10Perf f.rows).length = f.rows.length) ∧
    List.Pairwise (fun a b : Row => a.combinedRank ≤ b.combinedRank)
      (top10Perf f.rows) ∧
    (sel ≠ "All" →
      (render_content f "tab-bar1" sel).1 =
        .perfBar (f.rows.filter (fun r => decide (r.providerName = sel)))) ∧
    ¬ List.Pairwise (fun a b : Row => a.providerName ≠ b.providerName)
        (top10Perf (deriveRows [rowA, rowA])) := by
  have hlen : (f.rows.mergeSort rankLe).length = f.rows.length :=
    (List.mergeSort_perm _ rankLe).length_eq
  refine ⟨by simp [render_content], ?_, ?_, ?_, ?_, ?_⟩
  · intro h
    simp [top10Perf, List.length_take, hlen]
    omega
  · intro h
    simp [top10Perf, List.length_take, hlen]
    omega
  · exact List.Pairwise.imp (fun h => by simpa [rankLe] using h)
      (List.Pairwise.sublist (List.take_sublist _ _)
        (List.sorted_mergeSort rankLe_trans rankLe_total f.rows))
  · intro hs
    simp [render_content, hs, filterStage]
  · have hperm := List.mergeSort_perm (deriveRows [rowA, rowA]) rankLe
    have hall : ∀ x ∈ (deriveRows [rowA, rowA]).mergeSort rankLe,
        x = deriveRow rowA := by
      intro x hx
      have hx2 := hperm.mem_iff.mp hx
      simp only [deriveRows, List.map_cons, List.map_nil, List.mem_cons,
        List.not_mem_nil, or_false] at hx2
      tauto
    have hlen2 : ((deriveRows [rowA, rowA]).mergeSort rankLe).length = 2 := by
      simp [deriveRows] at hperm
      exact hperm.length_eq
    have heq : (deriveRows [rowA, rowA]).mergeSort rankLe =
        [deriveRow rowA, deriveRow rowA] := by
      have := List.eq_replicate_of_mem hall
      rw [hlen2] at this
      simpa [List.replicate] using this
    rw [top10Perf, heq]
    simp

/-- C5 witness: a table of 12 rows yields exactly 10 from the builder. -/
theorem c5_top10_witness :
    (top10Perf (deriveRows (List.replicate 12 rowA))).length = 10 := by
  apply (c5_top10_performance
    { cols := [], rows := deriveRows (List.replicate 12 rowA) } "A").2.1
  simp [deriveRows]

/-- C6: the Referral Bar builder on the "All" selector groups the whole
table by Provider Name, and its long-form output has exactly one row per
(provider, referral type) pair — length twice the number of distinct
provider names, which are exactly the table's provider names with no
duplicates — where each provider's two rates are the summed referral count
divided by the summed answered calls over that provider's group (not a mean
of per-row rates). -/
theorem c6_referral_grouped (f : Frame) :
    (render_content f "tab-bar" "All").1 =
      .referralBarAll (referralMelted f.rows) ∧
    (referralMelted f.rows).length = 2 * (sortedNames f.rows).length ∧
    (sortedNames f.rows).Nodup ∧
    (∀ p, p ∈ sortedNames f.rows ↔ p ∈ f.rows.map (fun r => r.providerName)) ∧
    (∀ n ∈ sortedNames f.rows,
      (n, "A&E_Referral_Rate",
        fdiv (groupSumAe f.rows n) (groupSumAnswered f.rows n)) ∈
          referralMelted f.rows ∧
      (n, "PrimaryCare_Referral_Rate",
        fdiv (groupSumPrimcare f.rows n) (groupSumAnswered f.rows n)) ∈
          referralMelted f.rows) ∧
    (∀ x ∈ referralMelted f.rows, x.1 ∈ sortedNames f.rows ∧
      (x = (x.1, "A&E_Referral_Rate",
          fdiv (groupSumAe f.rows x.1) (groupSumAnswered f.rows x.1)) ∨
       x = (x.1, "PrimaryCare_Referral_Rate",
          fdiv (groupSumPrimcare f.rows x.1) (groupSumAnswered f.rows x.1)))) := by
  refine ⟨by simp [render_content], ?_, ?_, ?_, ?_, ?_⟩
  · simp [referralMelted]
    ring
  · exact ((List.mergeSort_perm _ _).nodup_iff).mpr (List.nodup_dedup _)
  · intro p
    unfold sortedNames
    exact (List.mergeSort_perm _ _).mem_iff.trans List.mem_dedup
  · intro n hn
    constructor
    · exact List.mem_append_left _ (List.mem_map_of_mem _ hn)
    · exact List.mem_append_right _ (List.mem_map_of_mem _ hn)
  · intro x hx
    simp only [referralMelted, List.mem_append, List.mem_map] at hx
    rcases hx with ⟨n, hn, rfl⟩ | ⟨n, hn, rfl⟩
    · exact ⟨hn, Or.inl rfl⟩
    · exact ⟨hn, Or.inr rfl⟩

/-- C9: the Metric Deriver is row-wise and row-order independent: the
derived row at position i is the derivation of the raw row at position i,
and deriving after permuting the rows equals permuting after deriving, for
every permutation of the row indices. -/
theorem c9_deriver_rowwise (l : List RawRow) (σ : Equiv.Perm (Fin l.length)) :
    (∀ i : Fin l.length,
      (deriveRows l).get (Fin.cast (by simp [deriveRows]) i) =
        deriveRow (l.get i)) ∧
    deriveRows (List.ofFn fun i => l.get (σ i)) =
      List.ofFn fun i =>
        (deriveRows l).get (Fin.cast (by simp [deriveRows]) (σ i)) := by
  have hpt : ∀ i : Fin l.length,
      (deriveRows l).get (Fin.cast (by simp [deriveRows]) i) =
        deriveRow (l.get i) := by
    intro i
    simp [deriveRows, List.get_eq_getElem, List.getElem_map]
  refine ⟨hpt, ?_⟩
  simp only [deriveRows, List.map_ofFn]
  refine congrArg List.ofFn (funext fun i => ?_)
  exact (hpt (σ i)).symm

end NhsDash
